import Mathlib

/-!
Shallow embedding of the interaction orchestrator of `src/components/Generate.jsx`:
the React component state (`message`, `responses`, `currentResponseIndex`,
`isLoading`, `apiStatus`, `parameters`), the event handlers (`checkHealth`,
`loadDefaults`, `handleSubmit`, the carousel buttons, the dot indicators and the
parameter sliders), and the network effects they issue.

Modelling conventions:
* JavaScript numbers that hold sampling parameters are modelled as `Rat`
  (every literal in the source — 0.7, 0.9, 40, … — is an exact decimal).
* A JavaScript object holding the parameters is an association list
  `List (String × Rat)` with unique keys; `\x7b...prev, [key]: v\x7d` is `objSet`,
  which overwrites in place or appends a fresh key at the end, as JS does.
* A possibly-`undefined` JS value is an `Option`; `none` models `undefined`
  (and `null`, which behaves identically in every construct the source uses
  on object-valued fields).  Spreading `undefined` yields the empty object.
* A string-valued JSON field is a `JsStrField`: absent (`undefined`), `null`,
  or a string; this is enough to model the source's truthiness tests
  (`x || default`, `x === "healthy"`).
* The resolution of each of the three `fetch` calls is passed to the handler
  as an explicit argument (`ChatFetchResult`, `Except String _`): `.thrown`
  / `.error` covers a rejected `fetch` or a `response.json()` that throws,
  the other constructors a parsed JSON body.
* The component never inspects `id` (`Date.now()`) or `timestamp`
  (`new Date().toLocaleString()`); they are passed in as oracle arguments.
* `apiStatus` is the source's string state: one of `"checking"`, `"healthy"`,
  `"partial"`, `"error"`.
-/

/-- A string-valued JSON field as the source observes it: absent
(`undefined`), `null`, or an actual string. -/
inductive JsStrField where
  | absent : JsStrField
  | null : JsStrField
  | str : String → JsStrField
deriving DecidableEq, Inhabited

/-- JS truthiness of a string-valued field: `undefined`, `null` and `""` are
falsy, every other string is truthy. -/
def JsStrField.isFalsy : JsStrField → Bool
  | .absent => true
  | .null => true
  | .str s => s == ""

/-- JS `f || d` for a string-valued field `f` and string default `d`: the
right operand is returned exactly when the left is falsy. -/
def jsOrString (f : JsStrField) (d : String) : String :=
  match f with
  | .str s => if s == "" then d else s
  | _ => d

/-- A JS parameters object: ordered association list, unique keys. -/
abbrev Params := List (String × Rat)

/-- `\x7b...prev, [key]: v\x7d`: overwrite `key` in place when present, append it
otherwise (JS property-order semantics). -/
def objSet (ps : Params) (k : String) (v : Rat) : Params :=
  if ps.any (fun p => p.1 == k) then
    ps.map (fun p => if p.1 == k then (k, v) else p)
  else
    ps ++ [(k, v)]

/-- Lookup of a key's value in a JS parameters object. -/
def objGet : Params → String → Option Rat
  | [], _ => none
  | p :: ps, k => if p.1 == k then some p.2 else objGet ps k

/-- `\x7b...parameters\x7d` when `parameters` may be `undefined`: spreading
`undefined` (or `null`) yields the empty object. -/
def spreadParams : Option Params → Params
  | none => []
  | some ps => ps

/-- `data.choices[i].message` object of a completion payload
(`src/components/Generate.jsx` line 84). -/
structure ChatMessageJson where
  content : JsStrField
deriving DecidableEq, Inhabited

/-- One element of `data.choices`; the `message` field may be absent. -/
structure ChoiceJson where
  message : Option ChatMessageJson
deriving DecidableEq, Inhabited

/-- A parsed body of a successful `/chat/completions` response; the `choices`
field may be absent. -/
structure ChatPayload where
  choices : Option (List ChoiceJson)
deriving DecidableEq, Inhabited

/-- A parsed body of a non-ok `/chat/completions` response
(line 97: `errorData`); the `error` field may be absent, null or a string. -/
structure ErrorPayload where
  error : JsStrField
deriving DecidableEq, Inhabited

/-- A parsed body of the `/parameters/defaults` response (line 49: `data`);
`defaults` may be absent. -/
structure DefaultsPayload where
  defaults : Option Params
deriving DecidableEq, Inhabited

/-- A parsed body of the `/health` response (line 34: `data`); `status` may
be absent, null or a string. -/
structure HealthPayload where
  status : JsStrField
deriving DecidableEq, Inhabited

/-- The optional chain `data.choices?.[0]?.message?.content` (line 84):
`undefined` as soon as a link is absent, otherwise the `content` field. -/
def optChainContent (p : ChatPayload) : JsStrField :=
  match p.choices with
  | none => .absent
  | some [] => .absent
  | some (c :: _) =>
    match c.message with
    | none => .absent
    | some m => m.content

/-- How the `/chat/completions` fetch of `handleSubmit` resolves:
`ok` — `response.ok` with a parsed JSON body; `httpError` — a non-ok status
with a parsed JSON body; `thrown` — `fetch` rejected or `response.json()`
threw (the `catch` path), carrying `error.message`. -/
inductive ChatFetchResult where
  | ok : ChatPayload → ChatFetchResult
  | httpError : ErrorPayload → ChatFetchResult
  | thrown : String → ChatFetchResult
deriving DecidableEq, Inhabited

/-- One entry of `responses` (lines 86–92, 98–104, 109–115).  A success
record has no `isError` property: reading it yields `undefined`, which is
falsy everywhere the component tests it, so it is modelled as `false`.
Error records have no `parameters` property, hence `parameters : Option`. -/
structure ResponseRecord where
  id : Nat
  prompt : String
  content : String
  timestamp : String
  parameters : Option Params
  isError : Bool
deriving DecidableEq, Inhabited

/-- The values captured by the `handleSubmit` closure for a submission that
has been accepted and is in flight: the `message` and `parameters` bindings
of the render in which the form was submitted. -/
structure PendingSubmit where
  prompt : String
  snapshot : Option Params
deriving DecidableEq, Inhabited

/-- The component state of `Generate` (lines 8–20).  `pending` is not a
`useState` hook: it models the in-flight `handleSubmit` closure (if any),
which is what the completion continuation reads its values from. -/
structure GenerateState where
  message : String
  responses : List ResponseRecord
  currentResponseIndex : Nat
  isLoading : Bool
  apiStatus : String
  parameters : Option Params
  pending : Option PendingSubmit
deriving DecidableEq, Inhabited

/-- One user turn of the request body (lines 65–70). -/
structure ChatTurn where
  role : String
  content : String
deriving DecidableEq, Inhabited

/-- The `/chat/completions` request body (lines 64–72):
`\x7bmessages: [...], ...parameters\x7d`; the spread merges every key of
`parameters` into the top level of the body, modelled by the `params`
field. -/
structure RequestBody where
  messages : List ChatTurn
  params : Params
deriving DecidableEq, Inhabited

/-- The externally visible actions a handler performs: issuing the
`/chat/completions` POST, or calling `alert`. -/
inductive Effect where
  | fetchChat : RequestBody → Effect
  | alertCall : String → Effect
deriving DecidableEq, Inhabited

/-- The slider configuration table (lines 239–246). -/
structure ParamConfig where
  min : Rat
  max : Rat
  step : Rat
  label : String
deriving DecidableEq, Inhabited

/-- `configs` (lines 239–246): the static range of each of the six known
parameter keys; `configs[key]` is `undefined` for any other key
(line 248–249 then renders nothing for it). -/
def configs : String → Option ParamConfig
  | "temperature" => some { min := 0, max := 2, step := mkRat 1 10, label := "Temperature" }
  | "top_p" => some { min := 0, max := 1, step := mkRat 1 20, label := "Top P" }
  | "top_k" => some { min := 1, max := 100, step := 1, label := "Top K" }
  | "max_tokens" => some { min := 1, max := 1000, step := 1, label := "Max Tokens" }
  | "frequency_penalty" => some { min := -2, max := 2, step := mkRat 1 10, label := "Frequency Penalty" }
  | "presence_penalty" => some { min := -2, max := 2, step := mkRat 1 10, label := "Presence Penalty" }
  | _ => none

/-- Clamping of a raw value into `[lo, hi]`.  The source renders each
parameter as `<input type="range" min=\x7bconfig.min\x7d max=\x7bconfig.max\x7d ...>`
(lines 256–260): the platform range control constrains the value it reports
to `onChange` into `[min, max]` (it additionally snaps to multiples of
`step`, which no claim depends on and which is not modelled). -/
def clampRat (lo hi x : Rat) : Rat := max lo (min hi x)

/-- The initial `parameters` state (lines 13–20). -/
def initialParameters : Params :=
  [("temperature", mkRat 7 10), ("top_p", mkRat 9 10), ("top_k", 40),
   ("max_tokens", 256), ("frequency_penalty", 0), ("presence_penalty", 0)]

/-- The initial component state (lines 8–20). -/
def initialState : GenerateState :=
  { message := ""
    responses := []
    currentResponseIndex := 0
    isLoading := false
    apiStatus := "checking"
    parameters := some initialParameters
    pending := none }

/-- `checkHealth` (lines 31–44) as a function of how the `/health` fetch
resolves: a parsed body whose `status` is the string `"healthy"` maps to
`"healthy"`, any other parsed body to `"partial"`, and a throw (rejected
fetch or malformed JSON) to `"error"`. -/
def checkHealth (r : Except String HealthPayload) : String :=
  match r with
  | .ok data => if data.status = JsStrField.str "healthy" then "healthy" else "partial"
  | .error _ => "error"

/-- The request body built by `handleSubmit` (lines 64–72). -/
def buildRequestBody (message : String) (parameters : Option Params) : RequestBody :=
  { messages := [{ role := "user", content := message }]
    params := spreadParams parameters }

/-- The JavaScript whitespace class used by `String.prototype.trim`
(WhiteSpace and LineTerminator code points). -/
def jsWhitespaceChar (c : Char) : Bool :=
  c.toNat == 0x20 || c.toNat == 0x9 || c.toNat == 0xA || c.toNat == 0xD ||
  c.toNat == 0xB || c.toNat == 0xC || c.toNat == 0xA0 || c.toNat == 0x1680 ||
  (0x2000 ≤ c.toNat && c.toNat ≤ 0x200A) || c.toNat == 0x2028 ||
  c.toNat == 0x2029 || c.toNat == 0x202F || c.toNat == 0x205F ||
  c.toNat == 0x3000 || c.toNat == 0xFEFF

/-- JS `s.trim()`: strip leading and trailing whitespace. -/
def jsTrim (s : String) : String :=
  ⟨((s.data.dropWhile jsWhitespaceChar).reverse.dropWhile jsWhitespaceChar).reverse⟩

/-- The `ResponseRecord` `handleSubmit` builds for each way the completion
fetch can resolve (lines 82–117).  The success record (86–92) stamps
`parameters: \x7b...parameters\x7d` from the submitting closure and sets no
`isError`; both error records (98–104, 109–115) set `isError: true` and
have no `parameters` property. -/
def mkRecord (now : Nat) (ts : String) (pend : PendingSubmit)
    (r : ChatFetchResult) : ResponseRecord :=
  match r with
  | .ok data =>
    { id := now
      prompt := pend.prompt
      content := jsOrString (optChainContent data) "No response content"
      timestamp := ts
      parameters := some (spreadParams pend.snapshot)
      isError := false }
  | .httpError errorData =>
    { id := now
      prompt := pend.prompt
      content := "Error: " ++ jsOrString errorData.error "Unknown error"
      timestamp := ts
      parameters := none
      isError := true }
  | .thrown msg =>
    { id := now
      prompt := pend.prompt
      content := "Network error: " ++ msg
      timestamp := ts
      parameters := none
      isError := true }

/-- The events that can reach the component, each one a handler the JSX
wires up (an event a disabled control cannot fire is handled as a no-op in
`step`). -/
inductive Event where
  | setMessage : String → Event
  | submit : Event
  | completeSubmit : Nat → String → ChatFetchResult → Event
  | prevResponse : Event
  | nextResponse : Event
  | dotJump : Nat → Event
  | resetDefaults : Except String DefaultsPayload → Event
  | healthResult : Except String HealthPayload → Event
  | paramSlide : String → Rat → Event
deriving Inhabited

/-- The transition function of the component: one event in, the next state
and the list of externally visible effects out.
* `setMessage` — the textarea `onChange` (line 199); the textarea is
  disabled while `isLoading` (line 203), so the event is then a no-op.
* `submit` — `handleSubmit` up to its `fetch` (lines 57–80): the submit
  button is disabled while `isLoading` (line 218), so a busy submission is
  rejected without running; an empty trimmed message returns early
  (line 59); otherwise the request body is built from the closure's
  `message` and `parameters`, the POST is issued and `isLoading` is set.
* `completeSubmit` — the rest of `handleSubmit` (lines 82–120) once the
  fetch resolves: append the record built by `mkRecord`, reset the carousel
  index, clear `isLoading` (the `finally`).
* `prevResponse` / `nextResponse` — the carousel buttons (lines 289–310),
  disabled when `responses.length <= 1`.
* `dotJump i` — the dot indicators (lines 344–353), rendered only when
  `responses.length > 1`, one per index.
* `resetDefaults` — `loadDefaults` (lines 46–55).
* `healthResult` — `checkHealth` (lines 31–44).
* `paramSlide k v` — a slider `onChange` (lines 262–265); a slider exists
  only for a key of `parameters` that has a `configs` entry (248–249), and
  the range control reports a value clamped into `[min, max]`. -/
def step (st : GenerateState) (e : Event) : GenerateState × List Effect :=
  match e with
  | .setMessage s =>
    if st.isLoading then (st, []) else ({ st with message := s }, [])
  | .submit =>
    if st.isLoading then (st, [])
    else if jsTrim st.message == "" then (st, [])
    else
      ({ st with
          isLoading := true
          pending := some { prompt := st.message, snapshot := st.parameters } },
       [Effect.fetchChat (buildRequestBody st.message st.parameters)])
  | .completeSubmit now ts r =>
    match st.pending with
    | none => (st, [])
    | some pend =>
      ({ st with
          responses := mkRecord now ts pend r :: st.responses
          currentResponseIndex := 0
          isLoading := false
          pending := none },
       [])
  | .prevResponse =>
    if st.responses.length ≤ 1 then (st, [])
    else if 0 < st.currentResponseIndex then
      ({ st with currentResponseIndex := st.currentResponseIndex - 1 }, [])
    else
      ({ st with currentResponseIndex := st.responses.length - 1 }, [])
  | .nextResponse =>
    if st.responses.length ≤ 1 then (st, [])
    else if st.currentResponseIndex < st.responses.length - 1 then
      ({ st with currentResponseIndex := st.currentResponseIndex + 1 }, [])
    else
      ({ st with currentResponseIndex := 0 }, [])
  | .dotJump i =>
    if 1 < st.responses.length ∧ i < st.responses.length then
      ({ st with currentResponseIndex := i }, [])
    else (st, [])
  | .resetDefaults r =>
    match r with
    | .ok data =>
      ({ st with parameters := data.defaults },
       [Effect.alertCall "Parameters reset to defaults!"])
    | .error msg =>
      (st, [Effect.alertCall ("Failed to load defaults: " ++ msg)])
  | .healthResult r =>
    ({ st with apiStatus := checkHealth r }, [])
  | .paramSlide k v =>
    match configs k with
    | none => (st, [])
    | some cfg =>
      if (spreadParams st.parameters).any (fun p => p.1 == k) then
        ({ st with
            parameters :=
              some (objSet (spreadParams st.parameters) k
                (clampRat cfg.min cfg.max v)) },
         [])
      else (st, [])

/-- The state component of `step`. -/
def stepSt (st : GenerateState) (e : Event) : GenerateState := (step st e).1

/-- Run a list of events from a state. -/
def run (st : GenerateState) : List Event → GenerateState
  | [] => st
  | e :: tr => run (stepSt st e) tr

/-- An accepted submission followed by the resolution of its fetch. -/
def submitCycle (st : GenerateState) (now : Nat) (ts : String)
    (r : ChatFetchResult) : GenerateState :=
  stepSt (stepSt st .submit) (.completeSubmit now ts r)

/-- Modelled from the spec: `ResponseHistory.clear` — the source exposes no
clear control; §4.4 specifies it empties the sequence and resets
`currentIndex` to 0. -/
def clearHistory (st : GenerateState) : GenerateState :=
  { st with responses := [], currentResponseIndex := 0 }

/-- The ResponseHistory carousel invariant of §3 of the spec. -/
def historyInv (st : GenerateState) : Prop :=
  0 < st.responses.length → st.currentResponseIndex < st.responses.length

/-- The prompts of the submissions a trace gets accepted, in acceptance
order, mirroring the guards of the `submit` case of `step`. -/
def acceptedOf (st : GenerateState) : List Event → List String
  | [] => []
  | e :: tr =>
    (match e with
     | .submit =>
       if st.isLoading then [] else if jsTrim st.message == "" then []
       else [st.message]
     | _ => []) ++ acceptedOf (stepSt st e) tr

/-- The records a trace appends to `responses`, in append order,
mirroring the `completeSubmit` case of `step`. -/
def appendedOf (st : GenerateState) : List Event → List ResponseRecord
  | [] => []
  | e :: tr =>
    (match e with
     | .completeSubmit now ts r =>
       match st.pending with
       | some pend => [mkRecord now ts pend r]
       | none => []
     | _ => []) ++ appendedOf (stepSt st e) tr

/-- The prompt of an in-flight submission, as a list. -/
def pendingPrompts : Option PendingSubmit → List String
  | none => []
  | some p => [p.prompt]

/-- The in-flight flag agrees with the pending-closure slot. -/
def loadingInv (st : GenerateState) : Prop :=
  st.isLoading = st.pending.isSome

/-- A concrete state with a prompt entered, used by witnesses and
counterexamples. -/
def cexState : GenerateState := stepSt initialState (.setMessage "find a beginner repo")

/-- The record built for a resolution always carries the pending prompt. -/
theorem mkRecord_prompt (now : Nat) (ts : String) (pend : PendingSubmit)
    (r : ChatFetchResult) : (mkRecord now ts pend r).prompt = pend.prompt := by
  cases r <;> rfl

/-- Overwriting a key that is present stores the new value at that key. -/
theorem objGet_objSet (ps : Params) (k : String) (v : Rat)
    (h : ps.any (fun p => p.1 == k) = true) :
    objGet (objSet ps k v) k = some v := by
  simp only [objSet, h, if_true]
  induction ps with
  | nil => simp at h
  | cons p ps ih =>
    obtain ⟨a, b⟩ := p
    rw [List.map_cons]
    by_cases hp : (a == k) = true
    · have ha : a = k := by simpa using hp
      subst ha
      simp [objGet]
    · have he : ((if (a == k) = true then (k, v) else (a, b)) : String × Rat)
          = (a, b) := by simp [hp]
      rw [he]
      have h2 : (ps.any fun q => q.1 == k) = true := by simpa [hp] using h
      simpa [objGet, hp] using ih h2

/-- Every key `configs` knows has a well-ordered range. -/
theorem configs_min_le_max (k : String) (c : ParamConfig)
    (h : configs k = some c) : c.min ≤ c.max := by
  unfold configs at h
  split at h <;> first
    | exact Option.noConfusion h
    | (injection h with h2 ; subst h2 ; decide)

/-- An accepted submission followed by its resolution: the whole effect of
`handleSubmit` on the state. -/
theorem submitCycle_accepted (st : GenerateState) (now : Nat) (ts : String)
    (r : ChatFetchResult) (hL : st.isLoading = false)
    (hM : jsTrim st.message ≠ "") :
    submitCycle st now ts r =
      { st with
          responses :=
            mkRecord now ts { prompt := st.message, snapshot := st.parameters } r
              :: st.responses
          currentResponseIndex := 0
          isLoading := false
          pending := none } := by
  have h1 : (jsTrim st.message == "") = false := beq_eq_false_iff_ne.mpr hM
  simp only [submitCycle, stepSt, step, hL, h1, Bool.false_eq_true, if_false]

/-- Claim C9: submitting a prompt whose whitespace-trimmed form is empty is
a no-op: the submit handler returns before doing anything, so no network
call is issued, no record is appended, and the history, carousel index and
parameter set are unchanged. -/
theorem c9_empty_prompt_noop (st : GenerateState) (h : jsTrim st.message = "") :
    step st .submit = (st, []) ∧
    (stepSt st .submit).responses = st.responses ∧
    (stepSt st .submit).currentResponseIndex = st.currentResponseIndex ∧
    (stepSt st .submit).parameters = st.parameters := by
  have hstep : step st .submit = (st, []) := by
    by_cases hl : st.isLoading
    · simp [step, hl]
    · simp [step, hl, h]
  refine ⟨hstep, ?_, ?_, ?_⟩ <;> simp [stepSt, hstep]

/-- Witness for C9 at the whitespace-only prompt consisting of three
spaces. -/
theorem c9_witness :
    jsTrim "   " = "" ∧
    step { initialState with message := "   " } .submit
      = ({ initialState with message := "   " }, []) :=
  ⟨by decide, (c9_empty_prompt_noop { initialState with message := "   " } (by decide)).1⟩

/-- Claim C8: the health probe maps a parsed payload whose `status` is the
string `"healthy"` to the healthy status, any other parsed payload — for
example `status:"degraded"` — to the partial status, and any transport
failure or malformed payload (the thrown path) to the error status. -/
theorem c8_health_classification :
    (∀ p : HealthPayload, p.status = JsStrField.str "healthy" →
        checkHealth (Except.ok p) = "healthy") ∧
    (∀ p : HealthPayload, p.status ≠ JsStrField.str "healthy" →
        checkHealth (Except.ok p) = "partial") ∧
    (∀ msg : String, checkHealth (Except.error msg) = "error") ∧
    checkHealth (Except.ok { status := JsStrField.str "degraded" }) = "partial" := by
  refine ⟨?_, ?_, ?_, by decide⟩
  · intro p h; simp [checkHealth, h]
  · intro p h; simp [checkHealth, h]
  · intro msg; rfl

/-- Witness for C8 at a healthy payload and at a payload with no status
field. -/
theorem c8_witness :
    checkHealth (Except.ok { status := JsStrField.str "healthy" }) = "healthy" ∧
    checkHealth (Except.ok { status := JsStrField.absent }) = "partial" :=
  ⟨c8_health_classification.1 _ rfl, c8_health_classification.2.1 _ (by decide)⟩

/-- Claim C4: sliding a known parameter key to a raw value stores that value
clamped into the key's static range — the stored value lies in
`[min, max]` — and in particular driving `temperature` to 5 against the
range `[0, 2]` stores 2. -/
theorem c4_set_clamps (st : GenerateState) (k : String) (v : Rat)
    (c : ParamConfig) (hc : configs k = some c)
    (hk : (spreadParams st.parameters).any (fun p => p.1 == k) = true) :
    objGet (spreadParams (stepSt st (.paramSlide k v)).parameters) k
      = some (clampRat c.min c.max v) ∧
    c.min ≤ clampRat c.min c.max v ∧
    clampRat c.min c.max v ≤ c.max ∧
    objGet (spreadParams
        (stepSt initialState (.paramSlide "temperature" 5)).parameters)
      "temperature" = some 2 := by
  refine ⟨?_, le_max_left _ _, max_le (configs_min_le_max k c hc) (min_le_left _ _), by decide⟩
  simp only [stepSt, step, hc, hk, if_true]
  exact objGet_objSet _ k _ hk

/-- Witness for C4: temperature driven to 5 on the initial state. -/
theorem c4_witness :
    objGet (spreadParams
        (stepSt initialState (.paramSlide "temperature" 5)).parameters)
      "temperature" = some (clampRat 0 2 5) :=
  (c4_set_clamps initialState "temperature" 5
    { min := 0, max := 2, step := mkRat 1 10, label := "Temperature" }
    (by decide) (by decide)).1

/-- Claim C5: `loadDefaults` is atomic: when the defaults fetch resolves to
a parsed body, the whole parameter set is wholesale-replaced by the body's
`defaults` object — the new set does not depend on the prior set — and when
the fetch throws, the state (in particular every parameter value) is
unchanged and the caller is notified by an alert. -/
theorem c5_reset_defaults_atomic (st stOther : GenerateState)
    (r : Except String DefaultsPayload) :
    (∀ d : DefaultsPayload, r = .ok d →
        (stepSt st (.resetDefaults r)).parameters = d.defaults ∧
        (stepSt st (.resetDefaults r)).parameters
          = (stepSt stOther (.resetDefaults r)).parameters) ∧
    (∀ msg : String, r = .error msg →
        step st (.resetDefaults r)
          = (st, [Effect.alertCall ("Failed to load defaults: " ++ msg)])) := by
  constructor
  · intro d hd; subst hd; exact ⟨rfl, rfl⟩
  · intro msg hm; subst hm; rfl

/-- Witness for C5 at a concrete succeeding and a concrete failing fetch. -/
theorem c5_witness :
    (stepSt cexState (.resetDefaults (.ok { defaults := some [("temperature", 1)] }))).parameters
      = some [("temperature", 1)] ∧
    step cexState (.resetDefaults (.error "boom"))
      = (cexState, [Effect.alertCall "Failed to load defaults: boom"]) :=
  ⟨((c5_reset_defaults_atomic cexState cexState _).1 _ rfl).1,
   (c5_reset_defaults_atomic cexState cexState _).2 "boom" rfl⟩

/-- Claim C10: on a success payload whose first choice's message content is
present but falsy — the empty string or `null` — the produced record's
content is the literal `"No response content"`: the `||` fallback triggers
on any falsy content value, not only on an absent field. -/
theorem c10_falsy_content_fallback (st : GenerateState) (now : Nat)
    (ts : String) (p : ChatPayload) (hL : st.isLoading = false)
    (hM : jsTrim st.message ≠ "")
    (hf : optChainContent p = JsStrField.null ∨
          optChainContent p = JsStrField.str "") :
    ∃ rec : ResponseRecord,
      (submitCycle st now ts (.ok p)).responses = rec :: st.responses ∧
      rec.content = "No response content" ∧ rec.isError = false := by
  rw [submitCycle_accepted st now ts _ hL hM]
  refine ⟨mkRecord now ts { prompt := st.message, snapshot := st.parameters } (.ok p),
    rfl, ?_, rfl⟩
  rcases hf with hf | hf <;> simp [mkRecord, jsOrString, hf]

/-- Witness for C10 at a payload whose first choice carries the empty
string as content. -/
theorem c10_witness :
    ∃ rec : ResponseRecord,
      (submitCycle cexState 1 "ts" (.ok
          { choices := some [{ message := some { content := JsStrField.str "" } }] })).responses
        = rec :: cexState.responses ∧
      rec.content = "No response content" ∧ rec.isError = false :=
  c10_falsy_content_fallback cexState 1 "ts" _ (by decide) (by decide) (Or.inr rfl)

/-- Counterexample to claim C1 as stated: on the well-formed success payload
whose first completion's message content is present and equal to the empty
string, the produced record's content is the literal
`"No response content"`, not the first completion's message content. -/
theorem c1_counterexample_empty_content :
    ((submitCycle cexState 1 "ts" (ChatFetchResult.ok
          { choices := some [{ message := some { content := JsStrField.str "" } }] })).responses.map
        (fun rec => rec.content) = ["No response content"]) ∧
    "No response content" ≠ "" := by decide

/-- Claim C1 as amended: for every submission that runs to completion, the
record matches the three-way classification, with the fallbacks firing on
falsy (absent, null or empty) fields: on a success payload the record has
`isError = false` and content equal to the first completion's message
content when that is a non-empty string, and the literal
`"No response content"` otherwise; on an HTTP error with a parsed body the
record has `isError = true` and content `"Error: " ++ payload.error` when
that is a non-empty string, and `"Error: Unknown error"` otherwise; on a
transport-level failure the record has `isError = true` and content
`"Network error: " ++ message`. -/
theorem c1_three_way_classification (st : GenerateState) (now : Nat)
    (ts : String) (r : ChatFetchResult) (hL : st.isLoading = false)
    (hM : jsTrim st.message ≠ "") :
    ∃ rec : ResponseRecord,
      (submitCycle st now ts r).responses = rec :: st.responses ∧
      (∀ p s, r = .ok p → optChainContent p = .str s → s ≠ "" →
          rec.isError = false ∧ rec.content = s) ∧
      (∀ p, r = .ok p → (optChainContent p).isFalsy = true →
          rec.isError = false ∧ rec.content = "No response content") ∧
      (∀ ep s, r = .httpError ep → ep.error = .str s → s ≠ "" →
          rec.isError = true ∧ rec.content = "Error: " ++ s) ∧
      (∀ ep, r = .httpError ep → ep.error.isFalsy = true →
          rec.isError = true ∧ rec.content = "Error: Unknown error") ∧
      (∀ msg, r = .thrown msg →
          rec.isError = true ∧ rec.content = "Network error: " ++ msg) := by
  rw [submitCycle_accepted st now ts r hL hM]
  refine ⟨mkRecord now ts { prompt := st.message, snapshot := st.parameters } r,
    rfl, ?_, ?_, ?_, ?_, ?_⟩
  · intro p s hr hc hs
    subst hr
    simp [mkRecord, jsOrString, hc, hs]
  · intro p hr hf
    subst hr
    cases hc : optChainContent p with
    | absent => simp [mkRecord, jsOrString, hc]
    | null => simp [mkRecord, jsOrString, hc]
    | str s =>
      rw [hc] at hf
      simp only [JsStrField.isFalsy] at hf
      simp [mkRecord, jsOrString, hc, hf]
  · intro ep s hr he hs
    subst hr
    simp [mkRecord, jsOrString, he, hs]
  · intro ep hr hf
    subst hr
    cases he : ep.error with
    | absent => simp [mkRecord, jsOrString, he]
    | null => simp [mkRecord, jsOrString, he]
    | str s =>
      rw [he] at hf
      simp only [JsStrField.isFalsy] at hf
      simp [mkRecord, jsOrString, he, hf]
  · intro msg hr
    subst hr
    exact ⟨rfl, rfl⟩

/-- Witness for the amended C1 at a concrete HTTP 500 with
`error:"model not loaded"`. -/
theorem c1_witness :
    ∃ rec : ResponseRecord,
      (submitCycle cexState 2 "ts"
          (.httpError { error := JsStrField.str "model not loaded" })).responses
        = rec :: cexState.responses ∧
      rec.isError = true ∧ rec.content = "Error: model not loaded" := by
  obtain ⟨rec, hcons, -, -, h5, -, -⟩ :=
    c1_three_way_classification cexState 2 "ts"
      (.httpError { error := JsStrField.str "model not loaded" })
      (by decide) (by decide)
  exact ⟨rec, hcons, h5 _ "model not loaded" rfl rfl (by decide)⟩

/-- Counterexample to claim C3 as stated: the record produced by an
API-error submission (here HTTP 500 with `error:"model not loaded"`)
carries no `parametersSnapshot` at all, rather than a copy of the
ParameterSet at submission time. -/
theorem c3_counterexample_error_record_no_snapshot :
    ((submitCycle cexState 2 "ts"
          (ChatFetchResult.httpError { error := JsStrField.str "model not loaded" })).responses.map
        (fun rec => rec.parameters) = [none]) ∧
    (none : Option Params) ≠ some (spreadParams cexState.parameters) := by decide

/-- Claim C3 as amended: in all three terminal cases of submit exactly one
ResponseRecord is produced and appended to the history, the carousel index
is reset and the in-flight flag is cleared; the success record carries
`parametersSnapshot`, a copy of the ParameterSet as it was at step 1 of the
submission, while the two error records carry no snapshot. -/
theorem c3_exactly_one_record (st : GenerateState) (now : Nat) (ts : String)
    (r : ChatFetchResult) (hL : st.isLoading = false)
    (hM : jsTrim st.message ≠ "") :
    ∃ rec : ResponseRecord,
      (submitCycle st now ts r).responses = rec :: st.responses ∧
      (submitCycle st now ts r).currentResponseIndex = 0 ∧
      (submitCycle st now ts r).isLoading = false ∧
      (∀ p, r = .ok p → rec.parameters = some (spreadParams st.parameters)) ∧
      (∀ ep, r = .httpError ep → rec.parameters = none) ∧
      (∀ msg, r = .thrown msg → rec.parameters = none) := by
  rw [submitCycle_accepted st now ts r hL hM]
  refine ⟨mkRecord now ts { prompt := st.message, snapshot := st.parameters } r,
    rfl, rfl, rfl, ?_, ?_, ?_⟩
  · intro p hr; subst hr; rfl
  · intro ep hr; subst hr; rfl
  · intro msg hr; subst hr; rfl

/-- Witness for the amended C3 at a success payload and at a network
failure. -/
theorem c3_witness :
    (∃ rec : ResponseRecord,
      (submitCycle cexState 1 "ts" (.ok
          { choices := some [{ message := some { content := JsStrField.str "hello" } }] })).responses
        = rec :: cexState.responses ∧
      rec.parameters = some (spreadParams cexState.parameters)) ∧
    (∃ rec : ResponseRecord,
      (submitCycle cexState 2 "ts" (.thrown "connection refused")).responses
        = rec :: cexState.responses ∧
      rec.parameters = none) := by
  constructor
  · obtain ⟨rec, hcons, -, -, hok, -, -⟩ :=
      c3_exactly_one_record cexState 1 "ts"
        (.ok { choices := some [{ message := some { content := JsStrField.str "hello" } }] })
        (by decide) (by decide)
    exact ⟨rec, hcons, hok _ rfl⟩
  · obtain ⟨rec, hcons, -, -, -, -, hth⟩ :=
      c3_exactly_one_record cexState 2 "ts" (.thrown "connection refused")
        (by decide) (by decide)
    exact ⟨rec, hcons, hth _ rfl⟩

/-- Counterexample to claim C6 as stated: a defaults payload carrying only
the unknown key `"foo"` is stored verbatim — after the reset the stored
ParameterSet contains the unknown key — and the unknown key flows into the
next completion request body. -/
theorem c6_counterexample_unknown_key_kept :
    ((stepSt cexState (.resetDefaults (.ok { defaults := some [("foo", 42)] }))).parameters
        = some [("foo", 42)]) ∧
    configs "foo" = none ∧
    ((step (stepSt cexState (.resetDefaults (.ok { defaults := some [("foo", 42)] })))
        .submit).2
      = [Effect.fetchChat
          { messages := [{ role := "user", content := "find a beginner repo" }]
            params := [("foo", 42)] }]) := by decide

/-- Claim C6 as amended: unknown keys in a remote defaults payload are not
crashed on, and the parameter-editing UI ignores them (no configuration
entry, so no slider and a slide event for them is a no-op); but they are
not dropped from the stored set: the ParameterSet is replaced by the
payload verbatim, unknown keys included, and any unknown key it contains is
spread into the body of a subsequent completion request. -/
theorem c6_unknown_keys_stored_not_rendered (st : GenerateState)
    (d : DefaultsPayload) (k : String) (v : Rat) (hk : configs k = none) :
    (stepSt st (.resetDefaults (.ok d))).parameters = d.defaults ∧
    (step (stepSt st (.resetDefaults (.ok d))) (.paramSlide k v)
        = (stepSt st (.resetDefaults (.ok d)), [])) ∧
    (∀ ps, (stepSt st (.resetDefaults (.ok d))).parameters = some ps →
        (k, v) ∈ ps →
        (stepSt st (.resetDefaults (.ok d))).isLoading = false →
        jsTrim (stepSt st (.resetDefaults (.ok d))).message ≠ "" →
        ∃ body, (step (stepSt st (.resetDefaults (.ok d))) .submit).2
            = [Effect.fetchChat body] ∧ (k, v) ∈ body.params) := by
  refine ⟨rfl, ?_, ?_⟩
  · simp [step, hk]
  · intro ps hps hmem hL hM
    have h1 : (jsTrim (stepSt st (.resetDefaults (.ok d))).message == "") = false :=
      beq_eq_false_iff_ne.mpr hM
    refine ⟨buildRequestBody (stepSt st (.resetDefaults (.ok d))).message
        (stepSt st (.resetDefaults (.ok d))).parameters, ?_, ?_⟩
    · simp [step, hL, h1]
    · simp [buildRequestBody, hps, spreadParams, hmem]

/-- Witness for the amended C6 at the concrete unknown key `"foo"`. -/
theorem c6_witness :
    (stepSt cexState (.resetDefaults (.ok { defaults := some [("foo", 42)] }))).parameters
      = some [("foo", 42)] ∧
    step (stepSt cexState (.resetDefaults (.ok { defaults := some [("foo", 42)] })))
        (.paramSlide "foo" 1)
      = (stepSt cexState (.resetDefaults (.ok { defaults := some [("foo", 42)] })), []) :=
  ⟨(c6_unknown_keys_stored_not_rendered cexState
      { defaults := some [("foo", 42)] } "foo" 1 (by decide)).1,
   (c6_unknown_keys_stored_not_rendered cexState
      { defaults := some [("foo", 42)] } "foo" 1 (by decide)).2.1⟩

/-- Claim C7: the ResponseHistory invariant `currentIndex < length` (for
nonempty history; `0 <= currentIndex` holds by type) is preserved by every
event — in particular the carousel previous/next buttons, the dot jump, and
every record append — as well as by the clear operation of the spec, and
`currentIndex` is reset to 0 every time a record is appended, for success
and error records alike. -/
theorem c7_history_invariant (st : GenerateState) (e : Event)
    (hinv : historyInv st) :
    historyInv (stepSt st e) ∧
    historyInv (clearHistory st) ∧
    (∀ (now : Nat) (ts : String) (r : ChatFetchResult),
      st.pending.isSome = true →
      (stepSt st (.completeSubmit now ts r)).currentResponseIndex = 0) := by
  refine ⟨?_, by simp [historyInv, clearHistory], ?_⟩
  · cases e with
    | setMessage s =>
      simp only [stepSt, step]
      split <;> simpa [historyInv] using hinv
    | submit =>
      simp only [stepSt, step]
      split
      · simpa [historyInv] using hinv
      · split <;> simpa [historyInv] using hinv
    | completeSubmit now2 ts2 r2 =>
      simp only [stepSt, step]
      cases hp2 : st.pending with
      | none => simpa [historyInv] using hinv
      | some pend => simp [historyInv]
    | prevResponse =>
      simp only [stepSt, step]
      split
      · simpa [historyInv] using hinv
      · rename_i hlen
        simp only [historyInv] at hinv ⊢
        have hidx := hinv (by omega)
        split <;> dsimp only <;> intro hpos <;> omega
    | nextResponse =>
      simp only [stepSt, step]
      split
      · simpa [historyInv] using hinv
      · rename_i hlen
        simp only [historyInv] at hinv ⊢
        have hidx := hinv (by omega)
        split <;> dsimp only <;> intro hpos <;> omega
    | dotJump i =>
      simp only [stepSt, step]
      split
      · rename_i hcond
        simp only [historyInv]
        intro hpos
        exact hcond.2
      · simpa [historyInv] using hinv
    | resetDefaults r2 =>
      cases r2 <;> simpa [stepSt, step, historyInv] using hinv
    | healthResult r2 =>
      simpa [stepSt, step, historyInv] using hinv
    | paramSlide k v =>
      simp only [stepSt, step]
      split
      · simpa [historyInv] using hinv
      · split <;> simpa [historyInv] using hinv
  · intro now ts r hp
    obtain ⟨pend, hpend⟩ := Option.isSome_iff_exists.mp hp
    simp only [stepSt, step, hpend]

/-- Witness for C7 at a state with a submission in flight and the carousel
previous-button event. -/
theorem c7_witness :
    historyInv (stepSt (stepSt cexState .submit) .prevResponse) ∧
    (stepSt (stepSt cexState .submit)
        (.completeSubmit 1 "ts" (.thrown "x"))).currentResponseIndex = 0 := by
  obtain ⟨h1, -, h3⟩ :=
    c7_history_invariant (stepSt cexState .submit) .prevResponse
      (by intro h; simpa using h)
  exact ⟨h1, h3 1 "ts" (.thrown "x") (by decide)⟩

/-- Every event preserves agreement between the in-flight flag and the
pending-closure slot. -/
theorem loadingInv_step (st : GenerateState) (e : Event) (h : loadingInv st) :
    loadingInv (stepSt st e) := by
  cases e with
  | setMessage s =>
    simp only [loadingInv, stepSt, step] at h ⊢
    split <;> simpa using h
  | submit =>
    simp only [loadingInv, stepSt, step] at h ⊢
    split
    · simpa using h
    · split
      · simpa using h
      · simp
  | completeSubmit now ts r =>
    simp only [loadingInv, stepSt, step] at h ⊢
    split
    · simpa using h
    · simp
  | prevResponse =>
    simp only [loadingInv, stepSt, step] at h ⊢
    split
    · simpa using h
    · split <;> simpa using h
  | nextResponse =>
    simp only [loadingInv, stepSt, step] at h ⊢
    split
    · simpa using h
    · split <;> simpa using h
  | dotJump i =>
    simp only [loadingInv, stepSt, step] at h ⊢
    split <;> simpa using h
  | resetDefaults r =>
    simp only [loadingInv, stepSt, step] at h ⊢
    split <;> simpa using h
  | healthResult r =>
    simpa only [loadingInv, stepSt, step] using h
  | paramSlide k v =>
    simp only [loadingInv, stepSt, step] at h ⊢
    split
    · simpa using h
    · split <;> simpa using h

/-- One accounting step for an event that accepts no submission, appends no
record and leaves the pending slot alone. -/
theorem accounting_cons_zero (st : GenerateState) (e : Event) (tr : List Event)
    (hacc : acceptedOf st (e :: tr) = acceptedOf (stepSt st e) tr)
    (happ : appendedOf st (e :: tr) = appendedOf (stepSt st e) tr)
    (hpend : (stepSt st e).pending = st.pending)
    (hia : pendingPrompts (stepSt st e).pending ++ acceptedOf (stepSt st e) tr =
      (appendedOf (stepSt st e) tr).map (fun rec => rec.prompt)
        ++ pendingPrompts (run (stepSt st e) tr).pending) :
    pendingPrompts st.pending ++ acceptedOf st (e :: tr) =
      (appendedOf st (e :: tr)).map (fun rec => rec.prompt)
        ++ pendingPrompts (run st (e :: tr)).pending := by
  rw [hacc, happ, ← hpend, run]
  exact hia

/-- Accounting along any trace: the prompts of the submissions accepted so
far (the one already in flight first) are exactly the prompts of the
records appended so far followed by the prompt still in flight at the
end. -/
theorem pending_accounting (tr : List Event) : ∀ st : GenerateState,
    loadingInv st →
    pendingPrompts st.pending ++ acceptedOf st tr =
      (appendedOf st tr).map (fun rec => rec.prompt)
        ++ pendingPrompts (run st tr).pending := by
  induction tr with
  | nil => intro st h; simp [acceptedOf, appendedOf, run]
  | cons e tr ih =>
    intro st h
    have h2 := loadingInv_step st e h
    cases e with
    | setMessage s =>
      refine accounting_cons_zero st _ tr (by simp [acceptedOf]) (by simp [appendedOf]) ?_ (ih _ h2)
      simp only [stepSt, step]
      split <;> rfl
    | submit =>
      by_cases hl : st.isLoading = true
      · refine accounting_cons_zero st _ tr ?_ (by simp [appendedOf]) ?_ (ih _ h2)
        · simp [acceptedOf, hl]
        · simp [stepSt, step, hl]
      · have hlf : st.isLoading = false := by simpa using hl
        have hpn : st.pending = none := by
          cases hp : st.pending with
          | none => rfl
          | some p =>
            simp only [loadingInv, hlf, hp, Option.isSome_some] at h
            exact absurd h Bool.false_ne_true
        by_cases hm : (jsTrim st.message == "") = true
        · refine accounting_cons_zero st _ tr ?_ (by simp [appendedOf]) ?_ (ih _ h2)
          · simp [acceptedOf, hlf, hm]
          · simp [stepSt, step, hlf, hm]
        · have hmf : (jsTrim st.message == "") = false := by simpa using hm
          have hstep : stepSt st .submit =
              { st with
                  isLoading := true
                  pending := some { prompt := st.message, snapshot := st.parameters } } := by
            simp [stepSt, step, hlf, hmf]
          have hia := ih (stepSt st .submit) h2
          rw [hstep] at hia
          simp only [pendingPrompts] at hia
          simp only [acceptedOf, appendedOf, run, hlf, hmf, Bool.false_eq_true,
            if_false, hpn, pendingPrompts, List.nil_append, List.singleton_append]
          rw [hstep]
          exact hia
    | completeSubmit now ts r =>
      cases hp : st.pending with
      | none =>
        have hz := accounting_cons_zero st (Event.completeSubmit now ts r) tr
          (by simp [acceptedOf]) (by simp [appendedOf, hp])
          (by simp [stepSt, step, hp]) (ih _ h2)
        rw [hp] at hz
        exact hz
      | some pend =>
        have hstep : stepSt st (.completeSubmit now ts r) =
            { st with
                responses := mkRecord now ts pend r :: st.responses
                currentResponseIndex := 0
                isLoading := false
                pending := none } := by
          simp [stepSt, step, hp]
        have hia := ih (stepSt st (.completeSubmit now ts r)) h2
        rw [hstep] at hia
        simp only [pendingPrompts, List.nil_append] at hia
        simp only [acceptedOf, appendedOf, run, hp, pendingPrompts,
          List.map_cons, mkRecord_prompt, List.nil_append,
          List.singleton_append, List.cons_append]
        rw [hstep]
        rw [hia]
    | prevResponse =>
      refine accounting_cons_zero st _ tr (by simp [acceptedOf]) (by simp [appendedOf]) ?_ (ih _ h2)
      simp only [stepSt, step]
      split
      · rfl
      · split <;> rfl
    | nextResponse =>
      refine accounting_cons_zero st _ tr (by simp [acceptedOf]) (by simp [appendedOf]) ?_ (ih _ h2)
      simp only [stepSt, step]
      split
      · rfl
      · split <;> rfl
    | dotJump i =>
      refine accounting_cons_zero st _ tr (by simp [acceptedOf]) (by simp [appendedOf]) ?_ (ih _ h2)
      simp only [stepSt, step]
      split <;> rfl
    | resetDefaults r =>
      refine accounting_cons_zero st _ tr (by simp [acceptedOf]) (by simp [appendedOf]) ?_ (ih _ h2)
      simp only [stepSt, step]
      split <;> rfl
    | healthResult r =>
      exact accounting_cons_zero st _ tr (by simp [acceptedOf]) (by simp [appendedOf]) rfl (ih _ h2)
    | paramSlide k v =>
      refine accounting_cons_zero st _ tr (by simp [acceptedOf]) (by simp [appendedOf]) ?_ (ih _ h2)
      simp only [stepSt, step]
      split
      · rfl
      · split <;> rfl

/-- Claim C2: while a submission is in flight a further submit attempt is
rejected — the state is unchanged (no record appended) and no effect (in
particular no network call) is issued — and along any trace started idle
the records appended to the history list, in order, exactly the prompts of
the submissions accepted, in acceptance order (the suffix `rest` being the
at most one accepted submission still in flight at the end). -/
theorem c2_busy_rejected_and_ordered (stBusy st : GenerateState)
    (tr : List Event) (hb : stBusy.isLoading = true)
    (h0 : st.isLoading = false) (hp : st.pending = none) :
    step stBusy .submit = (stBusy, []) ∧
    ∃ rest, acceptedOf st tr
      = (appendedOf st tr).map (fun rec => rec.prompt) ++ rest := by
  constructor
  · simp [step, hb]
  · have hinv : loadingInv st := by simp [loadingInv, h0, hp]
    have hacc := pending_accounting tr st hinv
    rw [hp] at hacc
    simp only [pendingPrompts, List.nil_append] at hacc
    exact ⟨pendingPrompts (run st tr).pending, hacc⟩

/-- Witness for C2: a busy state rejects a submit outright, and a concrete
trace with two accepted submissions (the second still in flight) lists its
appended record in acceptance order. -/
theorem c2_witness :
    step (stepSt cexState .submit) .submit = (stepSt cexState .submit, []) ∧
    ∃ rest,
      acceptedOf initialState
          [.setMessage "a", .submit, .completeSubmit 1 "t" (.thrown "x"), .submit]
        = (appendedOf initialState
            [.setMessage "a", .submit, .completeSubmit 1 "t" (.thrown "x"), .submit]).map
            (fun rec => rec.prompt) ++ rest :=
  c2_busy_rejected_and_ordered (stepSt cexState .submit) initialState
    [.setMessage "a", .submit, .completeSubmit 1 "t" (.thrown "x"), .submit]
    (by decide) (by decide) (by decide)
